import Mathlib

/-!
Shallow embedding of the EchoNest music catalog service (`MusicService` and
`MetadataExtractionService`) together with proofs about its ingestion,
search, facet-aggregation and suggestion behaviour.

Modelling conventions:
* SQL/JS strings are Lean `String`s; string operations the Lean kernel cannot
  reduce (`String.toLower`, `trim`, ...) are re-implemented on `List Char`.
* Machine numbers are `Int`/`Nat`; `Math.floor`/`Math.ceil` applied to values
  modelled as integers are the identity and are dropped.
* Nullable database columns and optional TS fields are `Option`s.
* JS truthiness: `undefined`, `null`, `""` and `0` are falsy.
* A TypeORM query builder is modelled by its list of WHERE conjuncts;
  `where(...)` REPLACES the whole list while `andWhere(...)` appends to it —
  exactly the library semantics the service code is written against.
* The PostgreSQL ranking primitive (`to_tsvector ... @@ plainto_tsquery ...`)
  is kept abstract as a parameter `tsMatch`; `LIKE '%term%'` with `LOWER` on
  both sides is modelled as case-insensitive substring containment (wildcard
  characters inside the term itself are not modelled).
-/

deriving instance DecidableEq for Except

namespace EchoNest

/-- Characters of a string lower-cased (models SQL `LOWER` / JS `toLowerCase`). -/
def lowerChars (s : String) : List Char := s.toList.map Char.toLower

/-- Does the character list `hay` start with `needle`? -/
def startsWithL : List Char → List Char → Bool
  | [], _ => true
  | _ :: _, [] => false
  | n :: ns, h :: hs => n = h && startsWithL ns hs

/-- Does `needle` occur contiguously inside `hay`? -/
def containsL (needle : List Char) : List Char → Bool
  | [] => needle.isEmpty
  | h :: hs => startsWithL needle (h :: hs) || containsL needle hs

/-- Case-sensitive substring test (models JS `String.prototype.includes`). -/
def containsStr (hay needle : String) : Bool :=
  containsL needle.toList hay.toList

/-- Case-insensitive substring test: models
`LOWER(hay) LIKE LOWER('%' || needle || '%')`. -/
def ciContains (hay needle : String) : Bool :=
  containsL (lowerChars needle) (lowerChars hay)

/-- JS `String.prototype.trim`. -/
def trimS (s : String) : String :=
  ⟨((s.toList.dropWhile Char.isWhitespace).reverse.dropWhile
      Char.isWhitespace).reverse⟩

/-- JS `a || b` for an optional string `a`: `undefined`/`null`/`""` fall
through to `b`. -/
def jsStr (v : Option String) (d : String) : String :=
  match v with
  | some s => if s = "" then d else s
  | none => d

/-- JS `a || b` for an optional number `a`: `undefined`/`null`/`0` fall
through to `b`. -/
def jsInt (v : Option Int) (d : Int) : Int :=
  match v with
  | some n => if n = 0 then d else n
  | none => d

/-- JS truthiness of an optional string. -/
def strTruthy : Option String → Bool
  | some s => s ≠ ""
  | none => false

/-- JS truthiness of an optional number. -/
def intTruthy : Option Int → Bool
  | some n => n ≠ 0
  | none => false

/-- Lexicographic comparison of character lists by code point. -/
def lexLe : List Char → List Char → Bool
  | [], _ => true
  | _ :: _, [] => false
  | a :: as, b :: bs => if a = b then lexLe as bs else decide (a.toNat < b.toNat)

/-- JS default `Array.prototype.sort()` on strings (code-unit order). -/
def sortStrings (l : List String) : List String :=
  l.insertionSort (fun a b => lexLe a.toList b.toList = true)

/-- First-occurrence deduplication, with an accumulator of already-seen
values (models SQL `DISTINCT` materialised in row order). -/
def distinctAux : List String → List String → List String
  | _, [] => []
  | seen, v :: vs =>
    if v ∈ seen then distinctAux seen vs else v :: distinctAux (v :: seen) vs

/-- First-occurrence deduplication of a value list. -/
def distinct (l : List String) : List String := distinctAux [] l

/-- One row of the `music_files` table (`MusicFile` entity).  Identifiers are
modelled as `Nat` (UUIDs are opaque), timestamps as `Int`. -/
structure MusicFile where
  id : Nat
  fileName : String
  originalName : String
  title : Option String
  artist : Option String
  album : Option String
  genre : Option String
  year : Option Int
  trackNumber : Option Int
  totalTracks : Option Int
  discNumber : Option Int
  totalDiscs : Option Int
  albumArtist : Option String
  composers : Option (List String)
  comment : Option String
  bpm : Option Int
  key : Option String
  mood : Option String
  isrc : Option String
  lyrics : Option String
  duration : Option Int
  size : Int
  format : String
  bitrate : Option Int
  sampleRate : Option Int
  channels : Option Int
  encoding : Option String
  filePath : String
  coverArt : Option String
  userId : String
  createdAt : Int
deriving Repr, DecidableEq

/-- A TypeORM `SelectQueryBuilder`, reduced to its WHERE conjuncts. -/
structure QB where
  wheres : List (MusicFile → Bool)

/-- Models `createQueryBuilder(...)`: no conditions yet. -/
def QB.init : QB := ⟨[]⟩

/-- TypeORM `where(...)`: REPLACES every previously set condition. -/
def QB.whereQ (_qb : QB) (p : MusicFile → Bool) : QB := ⟨[p]⟩

/-- TypeORM `andWhere(...)`: appends one more conjunct. -/
def QB.andWhereQ (qb : QB) (p : MusicFile → Bool) : QB := ⟨qb.wheres ++ [p]⟩

/-- TypeORM `clone()`. -/
def QB.cloneQ (qb : QB) : QB := qb

/-- Does a row satisfy every WHERE conjunct of the builder? -/
def QB.sat (qb : QB) (r : MusicFile) : Bool := qb.wheres.all (fun p => p r)

/-- A `{min, max}` facet range. -/
structure NumRange where
  min : Int
  max : Int
deriving Repr, DecidableEq

/-- The `SearchFiltersDto` facet payload. -/
structure SearchFiltersDto where
  availableGenres : List String
  availableArtists : List String
  availableAlbums : List String
  availableKeys : List String
  availableMoods : List String
  availableEncodings : List String
  yearRange : NumRange
  durationRange : NumRange
  bpmRange : NumRange
  bitrateRange : NumRange
deriving Repr, DecidableEq

/-- One `SELECT DISTINCT field ... WHERE <qb>` sub-query of
`getSearchFilters`, followed by `.map(...).filter(Boolean).sort()`. -/
def distinctQuery (records : List MusicFile) (qb : QB)
    (f : MusicFile → Option String) : List String :=
  sortStrings ((distinct ((records.filter qb.sat).filterMap f)).filter
    (fun s => s ≠ ""))

/-- One `SELECT MIN(field), MAX(field) ... WHERE <qb>` sub-query; SQL
aggregates over zero rows yield NULL. -/
def minMaxQuery (records : List MusicFile) (qb : QB)
    (f : MusicFile → Option Int) : Option Int × Option Int :=
  let vals := (records.filter qb.sat).filterMap f
  (vals.min?, vals.max?)

/-- Models `MusicService.getSearchFilters`.  The builder is seeded with the owner
predicate, but every sub-query then calls `where(...)` on a clone, which
replaces (not extends) the condition list. -/
def getSearchFilters (records : List MusicFile) (userId : String)
    (currentYear : Int) : SearchFiltersDto :=
  let qb := QB.init.whereQ (fun r => r.userId = userId)
  let genres := distinctQuery records
    (qb.cloneQ.whereQ (fun r => r.genre.isSome)) (fun r => r.genre)
  let artists := distinctQuery records
    (qb.cloneQ.whereQ (fun r => r.artist.isSome)) (fun r => r.artist)
  let albums := distinctQuery records
    (qb.cloneQ.whereQ (fun r => r.album.isSome)) (fun r => r.album)
  let keys := distinctQuery records
    (qb.cloneQ.whereQ (fun r => r.key.isSome)) (fun r => r.key)
  let moods := distinctQuery records
    (qb.cloneQ.whereQ (fun r => r.mood.isSome)) (fun r => r.mood)
  let encodings := distinctQuery records
    (qb.cloneQ.whereQ (fun r => r.encoding.isSome)) (fun r => r.encoding)
  let yearMM := minMaxQuery records
    (qb.cloneQ.whereQ (fun r => r.year.isSome)) (fun r => r.year)
  let durMM := minMaxQuery records
    (qb.cloneQ.whereQ (fun r => r.duration.isSome)) (fun r => r.duration)
  let bpmMM := minMaxQuery records
    (qb.cloneQ.whereQ (fun r =>
      match r.bpm with
      | some b => decide (0 < b)
      | none => false)) (fun r => r.bpm)
  let bitMM := minMaxQuery records
    (qb.cloneQ.whereQ (fun r => r.bitrate.isSome)) (fun r => r.bitrate)
  { availableGenres := genres
    availableArtists := artists
    availableAlbums := albums
    availableKeys := keys
    availableMoods := moods
    availableEncodings := encodings
    yearRange := { min := jsInt yearMM.1 1900, max := jsInt yearMM.2 currentYear }
    durationRange := { min := jsInt durMM.1 0, max := jsInt durMM.2 600 }
    bpmRange := { min := jsInt bpmMM.1 0, max := jsInt bpmMM.2 200 }
    bitrateRange := { min := jsInt bitMM.1 32000, max := jsInt bitMM.2 320000 } }

/-- Suggestion categories. -/
inductive SuggestionType
  | title
  | artist
  | album
deriving Repr, DecidableEq

/-- One `{type, value, count}` autocomplete entry. -/
structure SuggestionEntry where
  type : SuggestionType
  value : String
  count : Nat
deriving Repr, DecidableEq

/-- Count-descending comparison used by `ORDER BY count DESC` and by the JS
`sort((a, b) => b.count - a.count)`; ties keep encounter order via stable
sorting. -/
def countDescLe (a b : SuggestionEntry) : Bool := decide (b.count ≤ a.count)

/-- Stable count-descending sort of suggestion entries. -/
def sortByCountDesc (l : List SuggestionEntry) : List SuggestionEntry :=
  l.insertionSort (fun a b => countDescLe a b = true)

/-- Models `LOWER(field) LIKE LOWER('%term%')` on a nullable column: NULL never
matches. -/
def likeOpt (v : Option String) (term : String) : Bool :=
  match v with
  | some s => ciContains s term
  | none => false

/-- The WHERE clause of one suggestion sub-query:
`LOWER(field) LIKE LOWER(:searchTerm) AND field IS NOT NULL`. -/
def suggestWhere (f : MusicFile → Option String) (term : String)
    (r : MusicFile) : Bool :=
  likeOpt (f r) term && (f r).isSome

/-- One suggestion sub-query: group matching rows by exact field value,
count each group, order by count descending, cap at `limit`. -/
def groupedSuggest (records : List MusicFile) (qb : QB)
    (f : MusicFile → Option String) (t : SuggestionType) (limit : Nat) :
    List SuggestionEntry :=
  let rows := records.filter qb.sat
  let vals := distinct (rows.filterMap f)
  let entries := vals.map (fun v =>
    { type := t, value := v
      count := (rows.filter (fun r => f r = some v)).length })
  (sortByCountDesc entries).take limit

/-- Models `MusicService.getSuggestions`.  As in `getSearchFilters`, each sub-query
calls `where(...)` on a clone of the owner-seeded builder, replacing the
owner condition. -/
def getSuggestions (records : List MusicFile) (userId : String)
    (q : Option String) (limit : Nat) : List SuggestionEntry :=
  match q with
  | none => []
  | some qs =>
    if (trimS qs).length < 2 then []
    else
      let term := trimS qs
      let qb := QB.init.whereQ (fun r => r.userId = userId)
      let titles := groupedSuggest records
        (qb.cloneQ.whereQ (suggestWhere (fun r => r.title) term))
        (fun r => r.title) SuggestionType.title limit
      let artists := groupedSuggest records
        (qb.cloneQ.whereQ (suggestWhere (fun r => r.artist) term))
        (fun r => r.artist) SuggestionType.artist limit
      let albums := groupedSuggest records
        (qb.cloneQ.whereQ (suggestWhere (fun r => r.album) term))
        (fun r => r.album) SuggestionType.album limit
      (sortByCountDesc (titles ++ artists ++ albums)).take limit

/-- The `SortBy` request enum. -/
inductive SortBy
  | relevance
  | title
  | artist
  | album
  | year
  | duration
  | createdAt
  | bpm
deriving Repr, DecidableEq

/-- Requested sort order (`'ASC' | 'DESC'`). -/
inductive SortDir
  | asc
  | desc
deriving Repr, DecidableEq

/-- Columns an `ORDER BY` clause of `applySorting` can name (`rank` is the
computed `ts_rank` select). -/
inductive SortField
  | rank
  | title
  | artist
  | album
  | year
  | duration
  | bpm
  | createdAt
deriving Repr, DecidableEq

/-- A validated `SearchMusicDto`; `page`, `limit`, `sortBy`, `sortOrder` are
stored with their destructuring defaults already applied. -/
structure SearchDto where
  q : Option String
  genre : Option String
  artist : Option String
  album : Option String
  albumArtist : Option String
  yearFrom : Option Int
  yearTo : Option Int
  durationFrom : Option Int
  durationTo : Option Int
  bpmFrom : Option Int
  bpmTo : Option Int
  minBitrate : Option Int
  channels : Option Int
  encoding : Option String
  key : Option String
  mood : Option String
  composers : Option (List String)
  hasLyrics : Option String
  hasCoverArt : Option String
  discNumber : Option Int
  trackNumber : Option Int
  sortBy : SortBy
  sortOrder : SortDir
  page : Nat
  limit : Nat

/-- SQL `COALESCE(v, '')`. -/
def coalesceS (v : Option String) : String := v.getD ""

/-- The `composers` column as stored by TypeORM `simple-array`
(comma-joined). -/
def composersStored (r : MusicFile) : Option String :=
  r.composers.map (String.intercalate ",")

/-- SQL `REPLACE(s, ',', ' ')`. -/
def replaceCommas (s : String) : String :=
  ⟨s.toList.map (fun c => if c = ',' then ' ' else c)⟩

/-- The document fed to `to_tsvector` in the free-text WHERE clause:
title, artist, album, albumArtist, composers (commas to spaces), comment and
lyrics, each `COALESCE`d to `''` and joined by single spaces. -/
def searchDocument (r : MusicFile) : String :=
  coalesceS r.title ++ " " ++ coalesceS r.artist ++ " " ++
  coalesceS r.album ++ " " ++ coalesceS r.albumArtist ++ " " ++
  coalesceS ((composersStored r).map replaceCommas) ++ " " ++
  coalesceS r.comment ++ " " ++ coalesceS r.lyrics

/-- The free-text WHERE clause: ranking match over the concatenated document
OR a case-insensitive substring match on title/artist/album/albumArtist. -/
def textCondition (tsMatch : String → String → Bool) (term : String)
    (r : MusicFile) : Bool :=
  tsMatch (searchDocument r) term ||
    (likeOpt r.title term || likeOpt r.artist term ||
      likeOpt r.album term || likeOpt r.albumArtist term)

/-- Models `LOWER(col) = LOWER(:x)` on a nullable column: NULL never matches. -/
def eqCIOpt (v : Option String) (x : String) : Bool :=
  match v with
  | some s => lowerChars s = lowerChars x
  | none => false

/-- Models `col >= :b` on a nullable column. -/
def geOpt (v : Option Int) (b : Int) : Bool :=
  match v with
  | some x => decide (b ≤ x)
  | none => false

/-- Models `col <= :b` on a nullable column. -/
def leOpt (v : Option Int) (b : Int) : Bool :=
  match v with
  | some x => decide (x ≤ b)
  | none => false

/-- Models `col BETWEEN :lo AND :hi` on a nullable column. -/
def betweenOpt (v : Option Int) (lo hi : Int) : Bool :=
  match v with
  | some x => decide (lo ≤ x) && decide (x ≤ hi)
  | none => false

/-- Models `col = :x` on a nullable integer column. -/
def eqIntOpt (v : Option Int) (x : Int) : Bool := v = some x

/-- Models `if (searchDto.q && searchDto.q.trim()) qb.andWhere(<text condition>)`. -/
def textStep (ts : String → String → Bool) (q : Option String) (qb : QB) :
    QB :=
  match q with
  | some qs => if trimS qs ≠ "" then qb.andWhereQ (textCondition ts (trimS qs)) else qb
  | none => qb

/-- Models `if (searchDto.<field>) qb.andWhere(...)` for a string field (JS
truthiness: absent or empty string means no filter). -/
def strFilterStep (v : Option String) (mk : String → MusicFile → Bool)
    (qb : QB) : QB :=
  match v with
  | some s => if s ≠ "" then qb.andWhereQ (mk s) else qb
  | none => qb

/-- Models `if (searchDto.<field>) qb.andWhere(...)` for a numeric field (JS
truthiness: absent or `0` means no filter). -/
def intFilterStep (v : Option Int) (mk : Int → MusicFile → Bool) (qb : QB) :
    QB :=
  match v with
  | some n => if n ≠ 0 then qb.andWhereQ (mk n) else qb
  | none => qb

/-- The `from`/`to` cascade of a range filter: BETWEEN when both bounds are
truthy, else `>=` or `<=` for a single truthy bound. -/
def rangeStep (vFrom vTo : Option Int) (f : MusicFile → Option Int)
    (qb : QB) : QB :=
  if intTruthy vFrom && intTruthy vTo then
    qb.andWhereQ (fun r => betweenOpt (f r) (vFrom.getD 0) (vTo.getD 0))
  else if intTruthy vFrom then qb.andWhereQ (fun r => geOpt (f r) (vFrom.getD 0))
  else if intTruthy vTo then qb.andWhereQ (fun r => leOpt (f r) (vTo.getD 0))
  else qb

/-- The composer filter: OR of `LOWER(composers) LIKE LOWER('%c%')` over the
supplied composers, applied only when the array is non-empty. -/
def composerStep (cs : Option (List String)) (qb : QB) : QB :=
  match cs with
  | some l =>
    if l.length > 0 then
      qb.andWhereQ (fun r => l.any (fun comp => likeOpt (composersStored r) comp))
    else qb
  | none => qb

/-- A tri-state presence filter: the strings `'true'`/`'false'` (compared
with `===`) require the column non-null-and-non-empty resp.
null-or-empty; anything else adds no condition. -/
def triStateStep (v : Option String) (f : MusicFile → Option String)
    (qb : QB) : QB :=
  if v = some "true" then qb.andWhereQ (fun r => strTruthy (f r))
  else if v = some "false" then qb.andWhereQ (fun r => !strTruthy (f r))
  else qb

/-- The WHERE-clause chain of `MusicService.searchMusic`: owner equality via
`where(...)`, then one `andWhere(...)` per supplied filter. -/
def buildSearchQB (ts : String → String → Bool) (dto : SearchDto)
    (userId : String) : QB :=
  let qb := QB.init.whereQ (fun r => r.userId = userId)
  let qb := textStep ts dto.q qb
  let qb := strFilterStep dto.genre (fun g r => eqCIOpt r.genre g) qb
  let qb := strFilterStep dto.artist (fun a r => likeOpt r.artist a) qb
  let qb := strFilterStep dto.album (fun a r => likeOpt r.album a) qb
  let qb := strFilterStep dto.albumArtist (fun a r => likeOpt r.albumArtist a) qb
  let qb := rangeStep dto.yearFrom dto.yearTo (fun r => r.year) qb
  let qb := rangeStep dto.durationFrom dto.durationTo (fun r => r.duration) qb
  let qb := rangeStep dto.bpmFrom dto.bpmTo (fun r => r.bpm) qb
  let qb := intFilterStep dto.minBitrate (fun b r => geOpt r.bitrate b) qb
  let qb := intFilterStep dto.channels (fun c r => eqIntOpt r.channels c) qb
  let qb := strFilterStep dto.encoding (fun e r => likeOpt r.encoding e) qb
  let qb := strFilterStep dto.key (fun k r => eqCIOpt r.key k) qb
  let qb := strFilterStep dto.mood (fun m r => likeOpt r.mood m) qb
  let qb := composerStep dto.composers qb
  let qb := triStateStep dto.hasLyrics (fun r => r.lyrics) qb
  let qb := triStateStep dto.hasCoverArt (fun r => r.coverArt) qb
  let qb := intFilterStep dto.discNumber (fun d r => eqIntOpt r.discNumber d) qb
  let qb := intFilterStep dto.trackNumber (fun t r => eqIntOpt r.trackNumber t) qb
  qb

/-- Models `MusicService.applySorting`, as the list of `ORDER BY` keys it installs
on the builder. -/
def applySorting (sortBy : SortBy) (sortOrder : SortDir)
    (searchQuery : Option String) : List (SortField × SortDir) :=
  match sortBy with
  | SortBy.relevance =>
    match searchQuery with
    | some qs =>
      if trimS qs ≠ "" then
        [(SortField.rank, SortDir.desc), (SortField.createdAt, SortDir.desc)]
      else [(SortField.createdAt, SortDir.desc)]
    | none => [(SortField.createdAt, SortDir.desc)]
  | SortBy.title => [(SortField.title, sortOrder)]
  | SortBy.artist => [(SortField.artist, sortOrder)]
  | SortBy.album => [(SortField.album, sortOrder)]
  | SortBy.year => [(SortField.year, sortOrder)]
  | SortBy.duration => [(SortField.duration, sortOrder)]
  | SortBy.createdAt => [(SortField.createdAt, sortOrder)]
  | SortBy.bpm => [(SortField.bpm, sortOrder)]

/-- Code-point comparison of character lists. -/
def cmpChars : List Char → List Char → Ordering
  | [], [] => Ordering.eq
  | [], _ :: _ => Ordering.lt
  | _ :: _, [] => Ordering.gt
  | a :: as, b :: bs =>
    if a = b then cmpChars as bs
    else if a.toNat < b.toNat then Ordering.lt else Ordering.gt

/-- Nullable string column comparison; NULLs sort as the largest values
(PostgreSQL default: NULLS LAST ascending, NULLS FIRST descending). -/
def cmpOptStr (x y : Option String) : Ordering :=
  match x, y with
  | none, none => Ordering.eq
  | none, some _ => Ordering.gt
  | some _, none => Ordering.lt
  | some a, some b => cmpChars a.toList b.toList

/-- Nullable integer column comparison; NULLs sort as the largest values. -/
def cmpOptInt (x y : Option Int) : Ordering :=
  match x, y with
  | none, none => Ordering.eq
  | none, some _ => Ordering.gt
  | some _, none => Ordering.lt
  | some a, some b => compare a b

/-- Compare two rows on one `ORDER BY` column; `score` is the store's
`ts_rank` value for the current query. -/
def fieldOrdering (score : MusicFile → Int) :
    SortField → MusicFile → MusicFile → Ordering
  | SortField.rank, a, b => compare (score a) (score b)
  | SortField.title, a, b => cmpOptStr a.title b.title
  | SortField.artist, a, b => cmpOptStr a.artist b.artist
  | SortField.album, a, b => cmpOptStr a.album b.album
  | SortField.year, a, b => cmpOptInt a.year b.year
  | SortField.duration, a, b => cmpOptInt a.duration b.duration
  | SortField.bpm, a, b => cmpOptInt a.bpm b.bpm
  | SortField.createdAt, a, b => compare a.createdAt b.createdAt

/-- Apply the requested direction to a column comparison. -/
def dirOrdering : SortDir → Ordering → Ordering
  | SortDir.asc, o => o
  | SortDir.desc, o => o.swap

/-- Lexicographic combination of the `ORDER BY` keys. -/
def keysOrdering (score : MusicFile → Int)
    (ks : List (SortField × SortDir)) (a b : MusicFile) : Ordering :=
  match ks with
  | [] => Ordering.eq
  | (f, d) :: rest =>
    match dirOrdering d (fieldOrdering score f a b) with
    | Ordering.eq => keysOrdering score rest a b
    | o => o

/-- Holds when `a` may come before `b` under the `ORDER BY` keys. -/
def keysLe (score : MusicFile → Int) (ks : List (SortField × SortDir))
    (a b : MusicFile) : Bool :=
  decide (keysOrdering score ks a b ≠ Ordering.gt)

/-- The `searchMusic` response shape. -/
structure SearchResultDto where
  music : List MusicFile
  total : Nat
  totalPages : Nat
  currentPage : Nat
deriving Repr, DecidableEq

/-- Models `MusicService.searchMusic`: filter by the WHERE chain, count before
pagination, sort by the installed `ORDER BY` keys, then skip/take. -/
def searchMusic (ts : String → String → Bool) (score : MusicFile → Int)
    (dto : SearchDto) (userId : String) (records : List MusicFile) :
    SearchResultDto :=
  let qb := buildSearchQB ts dto userId
  let keys := applySorting dto.sortBy dto.sortOrder dto.q
  let matched := records.filter qb.sat
  let sorted := matched.insertionSort (fun a b => keysLe score keys a b = true)
  let skip := (dto.page - 1) * dto.limit
  { music := (sorted.drop skip).take dto.limit
    total := matched.length
    totalPages := (matched.length + dto.limit - 1) / dto.limit
    currentPage := dto.page }

/-- A search request carrying only a free-text query (every other filter
left unset, default sorting and page, explicit page size). -/
def qOnlyDto (qs : String) (limit : Nat) : SearchDto :=
  { q := some qs, genre := none, artist := none, album := none
    albumArtist := none, yearFrom := none, yearTo := none
    durationFrom := none, durationTo := none, bpmFrom := none, bpmTo := none
    minBitrate := none, channels := none, encoding := none, key := none
    mood := none, composers := none, hasLyrics := none, hasCoverArt := none
    discNumber := none, trackNumber := none, sortBy := SortBy.relevance
    sortOrder := SortDir.desc, page := 1, limit := limit }

/-- Errors the service surfaces to callers (the NestJS exception classes,
plus a rethrown store failure). -/
inductive SvcError
  | badRequest (msg : String)
  | notFound (msg : String)
  | forbidden (msg : String)
  | persistence (msg : String)
deriving Repr, DecidableEq

/-- The uploads directory, as the set of stored artifact paths. -/
structure FileSys where
  files : List String
deriving Repr, DecidableEq

/-- Models `fs.existsSync`. -/
def FileSys.existsF (fs : FileSys) (p : String) : Bool := p ∈ fs.files

/-- Models `fs.unlinkSync`. -/
def FileSys.unlink (fs : FileSys) (p : String) : FileSys :=
  ⟨fs.files.filter (fun q => q ≠ p)⟩

/-- Models `fs.writeFileSync` of a fresh artifact. -/
def FileSys.write (fs : FileSys) (p : String) : FileSys := ⟨p :: fs.files⟩

/-- The `music_files` store: its rows plus the id the next insert receives. -/
structure Db where
  rows : List MusicFile
  nextId : Nat
deriving Repr, DecidableEq

/-- Combined artifact-store / catalog-store state. -/
structure SysState where
  fs : FileSys
  db : Db
deriving Repr, DecidableEq

/-- The `ExtractedMetadata` record returned by the metadata extractor; the
embedded artwork is abbreviated to its MIME/format string. -/
structure Extracted where
  title : Option String
  artist : Option String
  album : Option String
  genre : Option String
  year : Option Int
  trackNumber : Option Int
  totalTracks : Option Int
  discNumber : Option Int
  totalDiscs : Option Int
  albumArtist : Option String
  composers : Option (List String)
  comment : Option String
  bpm : Option Int
  key : Option String
  mood : Option String
  isrc : Option String
  lyrics : Option String
  duration : Option Int
  bitrate : Option Int
  sampleRate : Option Int
  channels : Option Int
  encoding : Option String
  artwork : Option String
deriving Repr, DecidableEq

/-- A Multer upload: names, stored path, reported size and the size actually
found on disk. -/
structure UploadedFile where
  filename : String
  originalName : String
  path : String
  size : Int
  diskSize : Int
deriving Repr, DecidableEq

/-- The `UploadMusicDto` user-supplied fields. -/
structure UploadDto where
  title : Option String
  artist : Option String
  album : Option String
  genre : Option String
  year : Option Int
deriving Repr, DecidableEq

/-- Which collaborator calls fail during an ingestion: the first record
save, the artwork disk write, and the cover-art-attaching second save. -/
structure FaultModel where
  persistFails : Bool
  artworkWriteFails : Bool
  attachFails : Bool
deriving Repr, DecidableEq

/-- Models `path.parse(filename).name`: the filename with its last extension
removed (a lone leading dot is not an extension). -/
def dropExtension (s : String) : String :=
  match s.toList.reverse.span (fun c => c ≠ '.') with
  | (_, []) => s
  | (_, _ :: restRev) => if restRev = [] then s else ⟨restRev.reverse⟩

/-- Split a character list at whitespace, dropping empty pieces (the
`replace(/\s+/g, ' ').trim().split(' ')` pipeline). -/
def splitWsGo (cur : List Char) : List Char → List (List Char)
  | [] => [cur.reverse]
  | c :: rest =>
    if c.isWhitespace then cur.reverse :: splitWsGo [] rest
    else splitWsGo (c :: cur) rest

/-- Whitespace-separated words of a character list. -/
def wordsOf (cs : List Char) : List (List Char) :=
  (splitWsGo [] cs).filter (fun w => w ≠ [])

/-- Models `word.charAt(0).toUpperCase() + word.slice(1).toLowerCase()`. -/
def capitalizeWord : List Char → List Char
  | [] => []
  | c :: cs => c.toUpper :: cs.map Char.toLower

/-- Models `join(' ')`. -/
def joinWords : List (List Char) → List Char
  | [] => []
  | [w] => w
  | w :: ws => w ++ ' ' :: joinWords ws

/-- Models `MusicService.extractTitleFromFilename`: drop the extension, turn
underscores and hyphens into spaces, collapse whitespace, and title-case
each word. -/
def extractTitleFromFilename (filename : String) : String :=
  let base := dropExtension filename
  let mapped := base.toList.map (fun c => if c = '_' || c = '-' then ' ' else c)
  ⟨joinWords ((wordsOf mapped).map capitalizeWord)⟩

/-- The record handed to `musicRepository.create` in `uploadMusic`: per-field
merge `user value || extracted value || computed default`, extracted-only
extended metadata and audio properties, and the file properties. -/
def buildRecord (file : UploadedFile) (dto : UploadDto) (ext : Extracted)
    (userId : String) (currentYear now : Int) (newId : Nat) : MusicFile :=
  { id := newId
    fileName := file.filename
    originalName := file.originalName
    title := some (jsStr dto.title
      (jsStr ext.title (extractTitleFromFilename file.originalName)))
    artist := some (jsStr dto.artist (jsStr ext.artist "Unknown Artist"))
    album := some (jsStr dto.album (jsStr ext.album "Unknown Album"))
    genre := some (jsStr dto.genre (jsStr ext.genre "Unknown"))
    year := some (jsInt dto.year (jsInt ext.year currentYear))
    trackNumber := ext.trackNumber
    totalTracks := ext.totalTracks
    discNumber := ext.discNumber
    totalDiscs := ext.totalDiscs
    albumArtist := ext.albumArtist
    composers := ext.composers
    comment := ext.comment
    bpm := ext.bpm
    key := ext.key
    mood := ext.mood
    isrc := ext.isrc
    lyrics := ext.lyrics
    duration := ext.duration
    size := file.size
    format := "mp3"
    bitrate := ext.bitrate
    sampleRate := ext.sampleRate
    channels := ext.channels
    encoding := ext.encoding
    filePath := file.path
    coverArt := none
    userId := userId
    createdAt := now }

/-- Models `format.includes('jpeg') ? '.jpg' : ...` extension choice. -/
def artworkExt (format : String) : String :=
  if containsStr format "jpeg" || containsStr format "jpg" then ".jpg"
  else if containsStr format "png" then ".png"
  else if containsStr format "webp" then ".webp"
  else ".jpg"

/-- Models `MetadataExtractionService.saveExtractedArtwork`: writes the artwork
artifact and returns its path; any internal failure is caught there and
reported as `null`. -/
def saveExtractedArtwork (writeFails : Bool) (fs : FileSys)
    (format userId : String) (musicId : Nat) : Option String × FileSys :=
  if writeFails then (none, fs)
  else
    let p := "uploads/music/covers/extracted_" ++ userId ++ "_" ++
      toString musicId ++ artworkExt format
    (some p, fs.write p)

/-- Models `MusicService.uploadMusic`.  The metadata extractor's response is the
parameter `ext` (it never throws once the file checks passed); `fm` says
which store operations fail.  Returns the response (built from the
in-memory record object) or the surfaced error, plus the final state. -/
def uploadMusic (file : Option UploadedFile) (dto : UploadDto)
    (ext : Extracted) (userId : String) (currentYear now : Int)
    (fm : FaultModel) (st : SysState) :
    Except SvcError MusicFile × SysState :=
  match file with
  | none => (Except.error (SvcError.badRequest "No file uploaded"), st)
  | some f =>
    if f.size = 0 then
      (Except.error (SvcError.badRequest "Uploaded file is empty"), st)
    else if !st.fs.existsF f.path then
      (Except.error (SvcError.badRequest
        "File upload failed - file not saved to disk"), st)
    else if f.diskSize = 0 then
      (Except.error (SvcError.badRequest
        "File upload failed - empty file saved to disk"),
        { st with fs := st.fs.unlink f.path })
    else if fm.persistFails then
      -- outer catch: clean up the uploaded audio file, rethrow the error
      (Except.error (SvcError.persistence "save failed"),
        { st with fs := st.fs.unlink f.path })
    else
      let newId := st.db.nextId
      let saved := buildRecord f dto ext userId currentYear now newId
      let db1 : Db := { rows := st.db.rows ++ [saved], nextId := newId + 1 }
      match ext.artwork with
      | none => (Except.ok saved, { st with db := db1 })
      | some fmt =>
        let art := saveExtractedArtwork fm.artworkWriteFails st.fs fmt userId newId
        match art.1 with
        | none => (Except.ok saved, { fs := art.2, db := db1 })
        | some p =>
          -- the in-memory entity is mutated before the attaching save
          let savedArt := { saved with coverArt := some p }
          if fm.attachFails then
            -- inner catch: swallowed; the response still carries savedArt
            (Except.ok savedArt, { fs := art.2, db := db1 })
          else
            let rows2 := db1.rows.map (fun r => if r.id = newId then savedArt else r)
            (Except.ok savedArt, { fs := art.2, db := { db1 with rows := rows2 } })

/-- Models `MusicService.uploadCoverArt`: look the record up by id AND owner,
delete any previous cover artifact, attach the new path; on a failing
update the new artifact is deleted and the error rethrown. -/
def uploadCoverArt (musicId : Nat) (file : Option UploadedFile)
    (userId : String) (updateFails : Bool) (st : SysState) :
    Except SvcError MusicFile × SysState :=
  match file with
  | none => (Except.error (SvcError.badRequest "Cover art upload failed"), st)
  | some f =>
    if !st.fs.existsF f.path then
      (Except.error (SvcError.badRequest "Cover art upload failed"), st)
    else
      match st.db.rows.find? (fun r => r.id = musicId && r.userId = userId) with
      | none =>
        (Except.error (SvcError.notFound "Music file not found"),
          { st with fs := st.fs.unlink f.path })
      | some m =>
        let fs1 := match m.coverArt with
          | some old => if st.fs.existsF old then st.fs.unlink old else st.fs
          | none => st.fs
        let updated := { m with coverArt := some f.path }
        if updateFails then
          (Except.error (SvcError.persistence "update failed"),
            { st with fs := fs1.unlink f.path })
        else
          let rows2 := st.db.rows.map (fun r => if r.id = m.id then updated else r)
          (Except.ok updated, { fs := fs1, db := { st.db with rows := rows2 } })

/-! Normal forms of the WHERE-chain steps: the Boolean contribution each
step makes to a row's membership, used to reason about `buildSearchQB`. -/

/-- Contribution of `textStep` to a row. -/
def textStepCond (ts : String → String → Bool) (q : Option String)
    (r : MusicFile) : Bool :=
  match q with
  | some qs => if trimS qs ≠ "" then textCondition ts (trimS qs) r else true
  | none => true

/-- Contribution of `strFilterStep` to a row. -/
def strFilterCond (v : Option String) (mk : String → MusicFile → Bool)
    (r : MusicFile) : Bool :=
  match v with
  | some s => if s ≠ "" then mk s r else true
  | none => true

/-- Contribution of `intFilterStep` to a row. -/
def intFilterCond (v : Option Int) (mk : Int → MusicFile → Bool)
    (r : MusicFile) : Bool :=
  match v with
  | some n => if n ≠ 0 then mk n r else true
  | none => true

/-- Contribution of `rangeStep` to a row. -/
def rangeCond (vFrom vTo : Option Int) (f : MusicFile → Option Int)
    (r : MusicFile) : Bool :=
  if intTruthy vFrom && intTruthy vTo then
    betweenOpt (f r) (vFrom.getD 0) (vTo.getD 0)
  else if intTruthy vFrom then geOpt (f r) (vFrom.getD 0)
  else if intTruthy vTo then leOpt (f r) (vTo.getD 0)
  else true

/-- Contribution of `composerStep` to a row. -/
def composerCond (cs : Option (List String)) (r : MusicFile) : Bool :=
  match cs with
  | some l =>
    if l.length > 0 then l.any (fun comp => likeOpt (composersStored r) comp)
    else true
  | none => true

/-- Contribution of `triStateStep` to a row. -/
def triStateCond (v : Option String) (f : MusicFile → Option String)
    (r : MusicFile) : Bool :=
  if v = some "true" then strTruthy (f r)
  else if v = some "false" then !strTruthy (f r)
  else true

/-- One field of the suggestion engine as the specification words it: the
distinct values of the field that case-insensitively contain the partial
query, each with its occurrence count, ordered by count descending and
capped at `limit` for this field. -/
def fieldSuggestSpec (records : List MusicFile)
    (f : MusicFile → Option String) (t : SuggestionType) (term : String)
    (limit : Nat) : List SuggestionEntry :=
  let vals := (distinct (records.filterMap f)).filter (fun v => ciContains v term)
  let entries := vals.map (fun v =>
    { type := t, value := v
      count := (records.filter (fun r => f r = some v)).length })
  (sortByCountDesc entries).take limit

/-- The suggestion result as the specification words it: merge the three
per-field lists, re-sort globally by count descending, truncate to `limit`
total. -/
def suggestSpec (records : List MusicFile) (term : String) (limit : Nat) :
    List SuggestionEntry :=
  (sortByCountDesc
    (fieldSuggestSpec records (fun r => r.title) SuggestionType.title term limit ++
      fieldSuggestSpec records (fun r => r.artist) SuggestionType.artist term limit ++
      fieldSuggestSpec records (fun r => r.album) SuggestionType.album term limit)).take limit

/-! Concrete fixtures used by witnesses and counterexamples. -/

/-- A catalog record owned by user `alice`. -/
def recAlice : MusicFile :=
  { id := 1, fileName := "f1", originalName := "o1", title := some "Jazz Classics"
    artist := some "Alice Band", album := some "Blue", genre := some "Jazz"
    year := some 1950, trackNumber := none, totalTracks := none, discNumber := none
    totalDiscs := none, albumArtist := none, composers := none, comment := none
    bpm := some 0, key := none, mood := none, isrc := none, lyrics := none
    duration := none, size := 10, format := "mp3", bitrate := none, sampleRate := none
    channels := none, encoding := none, filePath := "p1", coverArt := none
    userId := "alice", createdAt := 1 }

/-- A record of user `u1` titled `Rocket Man`. -/
def recRocket : MusicFile := { recAlice with title := some "Rocket Man", userId := "u1" }

/-- A Multer upload fixture. -/
def fileW : UploadedFile :=
  { filename := "s.mp3", originalName := "my_song.mp3", path := "up/s.mp3"
    size := 5, diskSize := 5 }

/-- A user who supplies only a title. -/
def dtoTitleOnly : UploadDto :=
  { title := some "My Song", artist := none, album := none, genre := none
    year := none }

/-- Extracted metadata carrying artist/album/audio properties and embedded
JPEG artwork. -/
def extSample : Extracted :=
  { title := none, artist := some "Tame Impala", album := some "Currents"
    genre := none, year := some 2015, trackNumber := none, totalTracks := none
    discNumber := none, totalDiscs := none, albumArtist := none, composers := none
    comment := none, bpm := none, key := none, mood := none, isrc := none
    lyrics := none, duration := some 240, bitrate := some 320000
    sampleRate := none, channels := some 2, encoding := none
    artwork := some "image/jpeg" }

/-- Initial state holding only the uploaded audio file. -/
def stInit : SysState := { fs := ⟨["up/s.mp3"]⟩, db := ⟨[], 0⟩ }

/-! Helper lemmas about the query-builder model. -/

theorem sat_andWhereQ (qb : QB) (p : MusicFile → Bool) (r : MusicFile) :
    (qb.andWhereQ p).sat r = (qb.sat r && p r) := by
  simp [QB.andWhereQ, QB.sat]

theorem sat_whereQ (qb : QB) (p : MusicFile → Bool) (r : MusicFile) :
    (qb.whereQ p).sat r = p r := by
  simp [QB.whereQ, QB.sat]

theorem sat_textStep (ts : String → String → Bool) (q : Option String)
    (qb : QB) (r : MusicFile) :
    (textStep ts q qb).sat r = (qb.sat r && textStepCond ts q r) := by
  cases q with
  | none => simp [textStep, textStepCond]
  | some qs =>
    by_cases h : trimS qs = "" <;>
      simp [textStep, textStepCond, h, sat_andWhereQ]

theorem sat_strFilterStep (v : Option String) (mk : String → MusicFile → Bool)
    (qb : QB) (r : MusicFile) :
    (strFilterStep v mk qb).sat r = (qb.sat r && strFilterCond v mk r) := by
  cases v with
  | none => simp [strFilterStep, strFilterCond]
  | some s =>
    by_cases h : s = "" <;>
      simp [strFilterStep, strFilterCond, h, sat_andWhereQ]

theorem sat_intFilterStep (v : Option Int) (mk : Int → MusicFile → Bool)
    (qb : QB) (r : MusicFile) :
    (intFilterStep v mk qb).sat r = (qb.sat r && intFilterCond v mk r) := by
  cases v with
  | none => simp [intFilterStep, intFilterCond]
  | some n =>
    by_cases h : n = 0 <;>
      simp [intFilterStep, intFilterCond, h, sat_andWhereQ]

theorem sat_rangeStep (vFrom vTo : Option Int) (f : MusicFile → Option Int)
    (qb : QB) (r : MusicFile) :
    (rangeStep vFrom vTo f qb).sat r = (qb.sat r && rangeCond vFrom vTo f r) := by
  cases hf : intTruthy vFrom <;> cases ht : intTruthy vTo <;>
    simp [rangeStep, rangeCond, hf, ht, sat_andWhereQ]

theorem sat_composerStep (cs : Option (List String)) (qb : QB) (r : MusicFile) :
    (composerStep cs qb).sat r = (qb.sat r && composerCond cs r) := by
  cases cs with
  | none => simp [composerStep, composerCond]
  | some l =>
    by_cases h : l.length > 0 <;>
      simp [composerStep, composerCond, h, sat_andWhereQ]

theorem sat_triStateStep (v : Option String) (f : MusicFile → Option String)
    (qb : QB) (r : MusicFile) :
    (triStateStep v f qb).sat r = (qb.sat r && triStateCond v f r) := by
  by_cases h1 : v = some "true"
  · simp [triStateStep, triStateCond, h1, sat_andWhereQ]
  · by_cases h2 : v = some "false" <;>
      simp [triStateStep, triStateCond, h1, h2, sat_andWhereQ]

/-- A row satisfies the `searchMusic` WHERE chain iff it satisfies the
owner predicate and every filter contribution. -/
theorem buildSearchQB_sat (ts : String → String → Bool) (dto : SearchDto)
    (uid : String) (r : MusicFile) :
    (buildSearchQB ts dto uid).sat r =
      (decide (r.userId = uid) &&
        textStepCond ts dto.q r &&
        strFilterCond dto.genre (fun g r => eqCIOpt r.genre g) r &&
        strFilterCond dto.artist (fun a r => likeOpt r.artist a) r &&
        strFilterCond dto.album (fun a r => likeOpt r.album a) r &&
        strFilterCond dto.albumArtist (fun a r => likeOpt r.albumArtist a) r &&
        rangeCond dto.yearFrom dto.yearTo (fun r => r.year) r &&
        rangeCond dto.durationFrom dto.durationTo (fun r => r.duration) r &&
        rangeCond dto.bpmFrom dto.bpmTo (fun r => r.bpm) r &&
        intFilterCond dto.minBitrate (fun b r => geOpt r.bitrate b) r &&
        intFilterCond dto.channels (fun c r => eqIntOpt r.channels c) r &&
        strFilterCond dto.encoding (fun e r => likeOpt r.encoding e) r &&
        strFilterCond dto.key (fun k r => eqCIOpt r.key k) r &&
        strFilterCond dto.mood (fun m r => likeOpt r.mood m) r &&
        composerCond dto.composers r &&
        triStateCond dto.hasLyrics (fun r => r.lyrics) r &&
        triStateCond dto.hasCoverArt (fun r => r.coverArt) r &&
        intFilterCond dto.discNumber (fun d r => eqIntOpt r.discNumber d) r &&
        intFilterCond dto.trackNumber (fun t r => eqIntOpt r.trackNumber t) r) := by
  simp only [buildSearchQB, sat_textStep, sat_strFilterStep, sat_intFilterStep,
    sat_rangeStep, sat_composerStep, sat_triStateStep, sat_whereQ]

/-! Claim theorems. -/

/-- C3: with sort key `relevance` and a non-blank query, the order keys are
ranking score descending then creation time descending, whatever order was
requested; with `relevance` and no (or a blank) query, creation time
descending. -/
theorem relevance_sort_keys (ord : SortDir) (q : Option String) :
    (∀ qs, q = some qs → trimS qs ≠ "" →
      applySorting SortBy.relevance ord q =
        [(SortField.rank, SortDir.desc), (SortField.createdAt, SortDir.desc)]) ∧
    (q = none →
      applySorting SortBy.relevance ord q = [(SortField.createdAt, SortDir.desc)]) ∧
    (∀ qs, q = some qs → trimS qs = "" →
      applySorting SortBy.relevance ord q = [(SortField.createdAt, SortDir.desc)]) := by
  refine ⟨?_, ?_, ?_⟩
  · intro qs hq ht
    subst hq
    simp [applySorting, ht]
  · intro hq
    subst hq
    simp [applySorting]
  · intro qs hq ht
    subst hq
    simp [applySorting, ht]

/-- Witness for C3: an ascending request still yields rank-descending keys. -/
theorem relevance_sort_keys_witness :
    applySorting SortBy.relevance SortDir.asc (some "rock") =
      [(SortField.rank, SortDir.desc), (SortField.createdAt, SortDir.desc)] :=
  (relevance_sort_keys SortDir.asc (some "rock")).1 "rock" rfl (by decide)

/-- C5: when the record save fails during ingestion of a valid upload, the
stored audio artifact is deleted, the persistence error is surfaced, and
the catalog rows are unchanged. -/
theorem upload_persist_failure_cleanup (f : UploadedFile) (dto : UploadDto)
    (ext : Extracted) (uid : String) (cy now : Int) (fm : FaultModel)
    (st : SysState) (h1 : f.size ≠ 0) (h2 : st.fs.existsF f.path = true)
    (h3 : f.diskSize ≠ 0) (h4 : fm.persistFails = true) :
    (uploadMusic (some f) dto ext uid cy now fm st).1 =
        Except.error (SvcError.persistence "save failed") ∧
      (uploadMusic (some f) dto ext uid cy now fm st).2.db = st.db ∧
      (uploadMusic (some f) dto ext uid cy now fm st).2.fs.existsF f.path = false := by
  have h2m : f.path ∈ st.fs.files := by simpa [FileSys.existsF] using h2
  simp [uploadMusic, h1, h2m, h3, h4, FileSys.unlink, FileSys.existsF,
    List.mem_filter]

/-- Witness for C5 at a concrete failing ingestion. -/
theorem upload_persist_failure_cleanup_witness :
    (uploadMusic (some fileW) dtoTitleOnly extSample "u1" 2026 7
        ⟨true, false, false⟩ stInit).1 =
      Except.error (SvcError.persistence "save failed") :=
  (upload_persist_failure_cleanup fileW dtoTitleOnly extSample "u1" 2026 7
    ⟨true, false, false⟩ stInit (by decide) (by decide) (by decide) rfl).1

/-- C7: `uploadCoverArt` answers with the same `NotFound` error whether the
record id is absent or the record belongs to another user, and it never
produces a `Forbidden` error. -/
theorem coverArt_owner_mismatch_notFound (musicId : Nat) (f : UploadedFile)
    (uid : String) (b : Bool) (st : SysState)
    (hf : st.fs.existsF f.path = true)
    (hno : ∀ r ∈ st.db.rows, r.id = musicId → r.userId ≠ uid) :
    (uploadCoverArt musicId (some f) uid b st).1 =
        Except.error (SvcError.notFound "Music file not found") ∧
      (∀ (mid : Nat) (file : Option UploadedFile) (u : String) (b2 : Bool)
          (st2 : SysState) (msg : String),
        (uploadCoverArt mid file u b2 st2).1 ≠
          Except.error (SvcError.forbidden msg)) := by
  constructor
  · have hfind : st.db.rows.find? (fun r => r.id = musicId && r.userId = uid) = none := by
      apply List.find?_eq_none.mpr
      intro r hr
      simp only [Bool.and_eq_true, decide_eq_true_eq, not_and]
      intro hid
      exact hno r hr hid
    simp [uploadCoverArt, hf, hfind]
  · intro mid file u b2 st2 msg
    unfold uploadCoverArt
    cases file with
    | none => simp
    | some f2 =>
      cases hex : st2.fs.existsF f2.path with
      | false => simp [hex]
      | true =>
        simp only [hex, Bool.not_true, Bool.false_eq_true, if_false]
        cases hfind : st2.db.rows.find? (fun r => r.id = mid && r.userId = u) with
        | none => simp [hfind]
        | some m => cases b2 <;> simp [hfind]

/-- Witness for C7: attaching cover art to another user's record. -/
theorem coverArt_owner_mismatch_notFound_witness :
    (uploadCoverArt 1 (some fileW) "bob" false
        { fs := ⟨["up/s.mp3"]⟩, db := ⟨[recAlice], 2⟩ }).1 =
      Except.error (SvcError.notFound "Music file not found") :=
  (coverArt_owner_mismatch_notFound 1 fileW "bob" false
    { fs := ⟨["up/s.mp3"]⟩, db := ⟨[recAlice], 2⟩ } (by decide) (by decide)).1

/-- C1 (code bug): the two catalogs `[recAlice]` and `[]` agree on owner
`bob`'s records (`bob` owns nothing in either), yet both the facet listing
and the suggestions for `bob` differ between them, because each sub-query's
`where(...)` call replaces the owner predicate instead of extending it. -/
theorem facets_and_suggestions_leak_other_owners :
    (getSearchFilters [recAlice] "bob" 2026).availableGenres ≠
        (getSearchFilters [] "bob" 2026).availableGenres ∧
      getSuggestions [recAlice] "bob" (some "ja") 10 ≠
        getSuggestions [] "bob" (some "ja") 10 := by
  decide

/-- Counterexample to C8 as stated: owner `bob` has no records at all (so
no record of `bob` has a non-null year), yet `yearRange` is not the
documented default `1900..currentYear` — it reflects `alice`'s record. -/
theorem facets_default_counterexample :
    (∀ r ∈ [recAlice], r.userId ≠ "bob") ∧
      (getSearchFilters [recAlice] "bob" 2026).yearRange ≠
        { min := 1900, max := 2026 } := by
  decide

theorem sat_whereQ_fun (qb : QB) (p : MusicFile → Bool) :
    (qb.whereQ p).sat = fun r => p r := by
  funext r
  exact sat_whereQ qb p r

theorem filterIsSome_filterMap_nil (f : MusicFile → Option Int)
    (records : List MusicFile) (h : ∀ r ∈ records, f r = none) :
    (records.filter (fun r => (f r).isSome)).filterMap f = [] := by
  induction records with
  | nil => simp
  | cons r rs ih =>
    have hr := h r (by simp)
    have hrest : ∀ x ∈ rs, f x = none := fun x hx =>
      h x (List.mem_cons_of_mem _ hx)
    simp [List.filter_cons, hr, ih hrest]

theorem bpm_match_false_of_nonpos (r : MusicFile)
    (h : ∀ b, r.bpm = some b → b ≤ 0) :
    (match r.bpm with
      | some b => decide (0 < b)
      | none => false) = false := by
  cases hb : r.bpm with
  | none => rfl
  | some b => simpa [hb] using not_lt.mpr (h b hb)

theorem bpm_filterMap_nil (records : List MusicFile)
    (h : ∀ r ∈ records, ∀ b, r.bpm = some b → b ≤ 0) :
    (records.filter (fun r =>
      match r.bpm with
      | some b => decide (0 < b)
      | none => false)).filterMap (fun r => r.bpm) = [] := by
  induction records with
  | nil => simp
  | cons r rs ih =>
    have hr := bpm_match_false_of_nonpos r (h r (by simp))
    have hrest : ∀ x ∈ rs, ∀ b, x.bpm = some b → b ≤ 0 := fun x hx =>
      h x (List.mem_cons_of_mem _ hx)
    simp only [List.filter_cons, hr, Bool.false_eq_true, if_false]
    exact ih hrest

/-- C8 (amended): when no record in the catalog (the aggregation is not
owner-scoped) has a non-null value for a numeric field, the returned range
is the documented default; and records whose BPM is non-positive never
influence the BPM range. -/
theorem facets_default_ranges (records : List MusicFile) (uid : String)
    (cy : Int) :
    ((∀ r ∈ records, r.year = none) →
      (getSearchFilters records uid cy).yearRange = { min := 1900, max := cy }) ∧
    ((∀ r ∈ records, r.duration = none) →
      (getSearchFilters records uid cy).durationRange = { min := 0, max := 600 }) ∧
    ((∀ r ∈ records, ∀ b, r.bpm = some b → b ≤ 0) →
      (getSearchFilters records uid cy).bpmRange = { min := 0, max := 200 }) ∧
    ((∀ r ∈ records, r.bitrate = none) →
      (getSearchFilters records uid cy).bitrateRange =
        { min := 32000, max := 320000 }) ∧
    (∀ r0, (∀ b, r0.bpm = some b → b ≤ 0) →
      (getSearchFilters (r0 :: records) uid cy).bpmRange =
        (getSearchFilters records uid cy).bpmRange) := by
  refine ⟨?_, ?_, ?_, ?_, ?_⟩
  · intro h
    have hnil := filterIsSome_filterMap_nil (fun r => r.year) records h
    simp [getSearchFilters, minMaxQuery, QB.cloneQ, sat_whereQ_fun, hnil, jsInt]
  · intro h
    have hnil := filterIsSome_filterMap_nil (fun r => r.duration) records h
    simp [getSearchFilters, minMaxQuery, QB.cloneQ, sat_whereQ_fun, hnil, jsInt]
  · intro h
    have hnil := bpm_filterMap_nil records h
    simp [getSearchFilters, minMaxQuery, QB.cloneQ, sat_whereQ_fun, hnil, jsInt]
  · intro h
    have hnil := filterIsSome_filterMap_nil (fun r => r.bitrate) records h
    simp [getSearchFilters, minMaxQuery, QB.cloneQ, sat_whereQ_fun, hnil, jsInt]
  · intro r0 h
    have hr0 := bpm_match_false_of_nonpos r0 h
    simp [getSearchFilters, minMaxQuery, QB.cloneQ, sat_whereQ_fun,
      List.filter_cons, hr0]

/-- Witness for C8 (amended) on a catalog whose only record has no numeric
metadata except a non-positive BPM. -/
theorem facets_default_ranges_witness :
    (getSearchFilters [recAlice] "alice" 2026).bpmRange = { min := 0, max := 200 } :=
  (facets_default_ranges [recAlice] "alice" 2026).2.2.1 (by decide)

theorem jsStr_user (v d : String) (h : v ≠ "") : jsStr (some v) d = v := by
  simp [jsStr, h]

theorem jsStr_falsy (v : Option String) (d : String)
    (h : strTruthy v = false) : jsStr v d = d := by
  cases v with
  | none => rfl
  | some s =>
    simp only [strTruthy, decide_eq_false_iff_not, not_not] at h
    simp [jsStr, h]

theorem jsInt_user (v d : Int) (h : v ≠ 0) : jsInt (some v) d = v := by
  simp [jsInt, h]

theorem jsInt_falsy (v : Option Int) (d : Int)
    (h : intTruthy v = false) : jsInt v d = d := by
  cases v with
  | none => rfl
  | some n =>
    simp only [intTruthy, decide_eq_false_iff_not, not_not] at h
    simp [jsInt, h]

/-- C4: the ingestion merge is per-field with precedence user value >
extracted value > computed default for title/artist/album/genre/year, and
the extended metadata and audio properties always come from extraction
(a user supplying only a title still receives them). -/
theorem upload_merge_precedence (file : UploadedFile) (dto : UploadDto)
    (ext : Extracted) (uid : String) (cy now : Int) (nid : Nat) :
    ((∀ v, dto.title = some v → v ≠ "" →
        (buildRecord file dto ext uid cy now nid).title = some v) ∧
      (strTruthy dto.title = false → ∀ v, ext.title = some v → v ≠ "" →
        (buildRecord file dto ext uid cy now nid).title = some v) ∧
      (strTruthy dto.title = false → strTruthy ext.title = false →
        (buildRecord file dto ext uid cy now nid).title =
          some (extractTitleFromFilename file.originalName))) ∧
    ((∀ v, dto.artist = some v → v ≠ "" →
        (buildRecord file dto ext uid cy now nid).artist = some v) ∧
      (strTruthy dto.artist = false → ∀ v, ext.artist = some v → v ≠ "" →
        (buildRecord file dto ext uid cy now nid).artist = some v) ∧
      (strTruthy dto.artist = false → strTruthy ext.artist = false →
        (buildRecord file dto ext uid cy now nid).artist = some "Unknown Artist")) ∧
    ((∀ v, dto.album = some v → v ≠ "" →
        (buildRecord file dto ext uid cy now nid).album = some v) ∧
      (strTruthy dto.album = false → ∀ v, ext.album = some v → v ≠ "" →
        (buildRecord file dto ext uid cy now nid).album = some v) ∧
      (strTruthy dto.album = false → strTruthy ext.album = false →
        (buildRecord file dto ext uid cy now nid).album = some "Unknown Album")) ∧
    ((∀ v, dto.genre = some v → v ≠ "" →
        (buildRecord file dto ext uid cy now nid).genre = some v) ∧
      (strTruthy dto.genre = false → ∀ v, ext.genre = some v → v ≠ "" →
        (buildRecord file dto ext uid cy now nid).genre = some v) ∧
      (strTruthy dto.genre = false → strTruthy ext.genre = false →
        (buildRecord file dto ext uid cy now nid).genre = some "Unknown")) ∧
    ((∀ n, dto.year = some n → n ≠ 0 →
        (buildRecord file dto ext uid cy now nid).year = some n) ∧
      (intTruthy dto.year = false → ∀ n, ext.year = some n → n ≠ 0 →
        (buildRecord file dto ext uid cy now nid).year = some n) ∧
      (intTruthy dto.year = false → intTruthy ext.year = false →
        (buildRecord file dto ext uid cy now nid).year = some cy)) ∧
    ((buildRecord file dto ext uid cy now nid).duration = ext.duration ∧
      (buildRecord file dto ext uid cy now nid).bitrate = ext.bitrate ∧
      (buildRecord file dto ext uid cy now nid).sampleRate = ext.sampleRate ∧
      (buildRecord file dto ext uid cy now nid).channels = ext.channels ∧
      (buildRecord file dto ext uid cy now nid).encoding = ext.encoding ∧
      (buildRecord file dto ext uid cy now nid).albumArtist = ext.albumArtist ∧
      (buildRecord file dto ext uid cy now nid).composers = ext.composers ∧
      (buildRecord file dto ext uid cy now nid).comment = ext.comment ∧
      (buildRecord file dto ext uid cy now nid).lyrics = ext.lyrics ∧
      (buildRecord file dto ext uid cy now nid).trackNumber = ext.trackNumber) := by
  refine ⟨⟨?_, ?_, ?_⟩, ⟨?_, ?_, ?_⟩, ⟨?_, ?_, ?_⟩, ⟨?_, ?_, ?_⟩, ⟨?_, ?_, ?_⟩,
    rfl, rfl, rfl, rfl, rfl, rfl, rfl, rfl, rfl, rfl⟩
  · intro v hv hne
    simp [buildRecord, hv, jsStr_user v _ hne]
  · intro hd v hv hne
    simp [buildRecord, jsStr_falsy _ _ hd, hv, jsStr_user v _ hne]
  · intro hd he
    simp [buildRecord, jsStr_falsy _ _ hd, jsStr_falsy _ _ he]
  · intro v hv hne
    simp [buildRecord, hv, jsStr_user v _ hne]
  · intro hd v hv hne
    simp [buildRecord, jsStr_falsy _ _ hd, hv, jsStr_user v _ hne]
  · intro hd he
    simp [buildRecord, jsStr_falsy _ _ hd, jsStr_falsy _ _ he]
  · intro v hv hne
    simp [buildRecord, hv, jsStr_user v _ hne]
  · intro hd v hv hne
    simp [buildRecord, jsStr_falsy _ _ hd, hv, jsStr_user v _ hne]
  · intro hd he
    simp [buildRecord, jsStr_falsy _ _ hd, jsStr_falsy _ _ he]
  · intro v hv hne
    simp [buildRecord, hv, jsStr_user v _ hne]
  · intro hd v hv hne
    simp [buildRecord, jsStr_falsy _ _ hd, hv, jsStr_user v _ hne]
  · intro hd he
    simp [buildRecord, jsStr_falsy _ _ hd, jsStr_falsy _ _ he]
  · intro n hn hne
    simp [buildRecord, hn, jsInt_user n _ hne]
  · intro hd n hn hne
    simp [buildRecord, jsInt_falsy _ _ hd, hn, jsInt_user n _ hne]
  · intro hd he
    simp [buildRecord, jsInt_falsy _ _ hd, jsInt_falsy _ _ he]

/-- Witness for C4: a user supplying only a title still receives the
extracted artist and bitrate. -/
theorem upload_merge_precedence_witness :
    (buildRecord fileW dtoTitleOnly extSample "u1" 2026 7 0).title = some "My Song" ∧
      (buildRecord fileW dtoTitleOnly extSample "u1" 2026 7 0).artist =
        some "Tame Impala" ∧
      (buildRecord fileW dtoTitleOnly extSample "u1" 2026 7 0).bitrate =
        some 320000 :=
  ⟨(upload_merge_precedence fileW dtoTitleOnly extSample "u1" 2026 7 0).1.1
      "My Song" rfl (by decide),
    (upload_merge_precedence fileW dtoTitleOnly extSample "u1" 2026 7 0).2.1.2.1
      (by decide) "Tame Impala" rfl (by decide),
    (upload_merge_precedence fileW dtoTitleOnly extSample "u1" 2026 7 0).2.2.2.2.2.2.1⟩

/-- Counterexample to C6 as stated: when the cover-art-attaching save fails,
the ingestion still succeeds but the returned record is NOT without cover
art — it carries the unpersisted reference, while the stored row has
none. -/
theorem artwork_attach_failure_keeps_reference :
    ((uploadMusic (some fileW) dtoTitleOnly extSample "u1" 2026 7
          ⟨false, false, true⟩ stInit).1.toOption.map (fun r => r.coverArt)) =
        some (some "uploads/music/covers/extracted_u1_0.jpg") ∧
      ((uploadMusic (some fileW) dtoTitleOnly extSample "u1" 2026 7
          ⟨false, false, true⟩ stInit).2.db.rows.map (fun r => r.coverArt)) =
        [none] := by
  decide

/-- C6 (amended): artwork failures never roll back or fail the ingestion:
with the record save succeeding the result is `ok` whatever the artwork
faults; a failing artwork write returns the record without cover art; a
failing attach save leaves the stored row without cover art but the
returned in-memory record still carries the unpersisted reference. -/
theorem artwork_failures_nonfatal (f : UploadedFile) (dto : UploadDto)
    (ext : Extracted) (uid : String) (cy now : Int) (fm : FaultModel)
    (st : SysState) (fmt : String)
    (h1 : f.size ≠ 0) (h2 : st.fs.existsF f.path = true) (h3 : f.diskSize ≠ 0)
    (hp : fm.persistFails = false) (ha : ext.artwork = some fmt) :
    (∃ m, (uploadMusic (some f) dto ext uid cy now fm st).1 = Except.ok m) ∧
      (fm.artworkWriteFails = true →
        (uploadMusic (some f) dto ext uid cy now fm st).1 =
            Except.ok (buildRecord f dto ext uid cy now st.db.nextId) ∧
          (buildRecord f dto ext uid cy now st.db.nextId).coverArt = none) ∧
      (fm.artworkWriteFails = false → fm.attachFails = true →
        (uploadMusic (some f) dto ext uid cy now fm st).1 =
            Except.ok { buildRecord f dto ext uid cy now st.db.nextId with
              coverArt := some ("uploads/music/covers/extracted_" ++ uid ++ "_" ++
                toString st.db.nextId ++ artworkExt fmt) } ∧
          (uploadMusic (some f) dto ext uid cy now fm st).2.db.rows =
            st.db.rows ++ [buildRecord f dto ext uid cy now st.db.nextId]) := by
  have h2m : f.path ∈ st.fs.files := by simpa [FileSys.existsF] using h2
  refine ⟨?_, ?_, ?_⟩
  · cases hw : fm.artworkWriteFails with
    | true =>
      exact ⟨buildRecord f dto ext uid cy now st.db.nextId,
        by simp [uploadMusic, FileSys.existsF, h1, h2m, h3, hp, ha, hw, saveExtractedArtwork]⟩
    | false =>
      cases hat : fm.attachFails with
      | true =>
        refine ⟨{ buildRecord f dto ext uid cy now st.db.nextId with
          coverArt := some ("uploads/music/covers/extracted_" ++ uid ++ "_" ++
            toString st.db.nextId ++ artworkExt fmt) }, ?_⟩
        simp [uploadMusic, FileSys.existsF, h1, h2m, h3, hp, ha, hw, hat, saveExtractedArtwork]
      | false =>
        refine ⟨{ buildRecord f dto ext uid cy now st.db.nextId with
          coverArt := some ("uploads/music/covers/extracted_" ++ uid ++ "_" ++
            toString st.db.nextId ++ artworkExt fmt) }, ?_⟩
        simp [uploadMusic, FileSys.existsF, h1, h2m, h3, hp, ha, hw, hat, saveExtractedArtwork]
  · intro hw
    refine ⟨?_, rfl⟩
    simp [uploadMusic, FileSys.existsF, h1, h2m, h3, hp, ha, hw, saveExtractedArtwork]
  · intro hw hat
    constructor <;>
      simp [uploadMusic, FileSys.existsF, h1, h2m, h3, hp, ha, hw, hat, saveExtractedArtwork]

/-- Witness for C6 (amended): a failing artwork write still yields a
successful ingestion without cover art. -/
theorem artwork_failures_nonfatal_witness :
    (uploadMusic (some fileW) dtoTitleOnly extSample "u1" 2026 7
        ⟨false, true, false⟩ stInit).1 =
      Except.ok (buildRecord fileW dtoTitleOnly extSample "u1" 2026 7 0) :=
  ((artwork_failures_nonfatal fileW dtoTitleOnly extSample "u1" 2026 7
    ⟨false, true, false⟩ stInit "image/jpeg" (by decide) (by decide) (by decide)
    rfl rfl).2.1 rfl).1

/-- C10: the has-lyrics and has-cover-art filters constrain the WHERE chain
only for the exact strings `'true'` and `'false'`: `'true'` requires the
column non-null and non-empty, `'false'` requires it null or empty, and any
other supplied string behaves exactly as an unset filter. -/
theorem tri_state_presence_filters (ts : String → String → Bool)
    (dto : SearchDto) (uid : String) (r : MusicFile) :
    (∀ s, s ≠ "true" → s ≠ "false" →
      (buildSearchQB ts { dto with hasLyrics := some s } uid).sat r =
        (buildSearchQB ts { dto with hasLyrics := none } uid).sat r) ∧
    ((buildSearchQB ts { dto with hasLyrics := some "true" } uid).sat r = true ↔
      ((buildSearchQB ts { dto with hasLyrics := none } uid).sat r = true ∧
        strTruthy r.lyrics = true)) ∧
    ((buildSearchQB ts { dto with hasLyrics := some "false" } uid).sat r = true ↔
      ((buildSearchQB ts { dto with hasLyrics := none } uid).sat r = true ∧
        strTruthy r.lyrics = false)) ∧
    (∀ s, s ≠ "true" → s ≠ "false" →
      (buildSearchQB ts { dto with hasCoverArt := some s } uid).sat r =
        (buildSearchQB ts { dto with hasCoverArt := none } uid).sat r) ∧
    ((buildSearchQB ts { dto with hasCoverArt := some "true" } uid).sat r = true ↔
      ((buildSearchQB ts { dto with hasCoverArt := none } uid).sat r = true ∧
        strTruthy r.coverArt = true)) ∧
    ((buildSearchQB ts { dto with hasCoverArt := some "false" } uid).sat r = true ↔
      ((buildSearchQB ts { dto with hasCoverArt := none } uid).sat r = true ∧
        strTruthy r.coverArt = false)) := by
  refine ⟨?_, ?_, ?_, ?_, ?_, ?_⟩
  · intro s h1 h2
    simp [buildSearchQB_sat, triStateCond, h1, h2]
  · simp only [buildSearchQB_sat]
    simp [triStateCond, Bool.and_eq_true]
    tauto
  · simp only [buildSearchQB_sat]
    simp [triStateCond, Bool.and_eq_true, Bool.not_eq_true']
    tauto
  · intro s h1 h2
    simp [buildSearchQB_sat, triStateCond, h1, h2]
  · simp only [buildSearchQB_sat]
    simp [triStateCond, Bool.and_eq_true]
    tauto
  · simp only [buildSearchQB_sat]
    simp [triStateCond, Bool.and_eq_true, Bool.not_eq_true']
    tauto

/-- Witness for C10: the string `"TRUE"` behaves as an unset filter. -/
theorem tri_state_presence_filters_witness :
    (buildSearchQB (fun _ _ => false)
        { qOnlyDto "ro" 10 with hasLyrics := some "TRUE" } "u1").sat recRocket =
      (buildSearchQB (fun _ _ => false)
        { qOnlyDto "ro" 10 with hasLyrics := none } "u1").sat recRocket :=
  (tri_state_presence_filters (fun _ _ => false) (qOnlyDto "ro" 10) "u1"
    recRocket).1 "TRUE" (by decide) (by decide)

/-- General membership description of a `searchMusic` result page when the
whole result fits on page 1. -/
theorem searchMusic_mem (ts : String → String → Bool)
    (score : MusicFile → Int) (dto : SearchDto) (uid : String)
    (records : List MusicFile) (r : MusicFile)
    (hpage : dto.page = 1) (hlen : records.length ≤ dto.limit) :
    r ∈ (searchMusic ts score dto uid records).music ↔
      (r ∈ records ∧ (buildSearchQB ts dto uid).sat r = true) := by
  simp only [searchMusic, hpage, Nat.sub_self, Nat.zero_mul, List.drop_zero]
  rw [List.take_of_length_le
    (le_trans (le_of_eq (List.perm_insertionSort _ _).length_eq)
      (le_trans (List.length_filter_le _ _) hlen))]
  rw [(List.perm_insertionSort _ _).mem_iff]
  simp [List.mem_filter]

/-- C2: with a non-blank free-text query and no other filters, a record is
returned iff it belongs to the owner and either the store's ranking
function matches the concatenated document or the trimmed query is a
case-insensitive substring of title, artist, album or album artist — so a
substring of the title matches whatever the ranking primitive does. -/
theorem search_text_condition (ts : String → String → Bool)
    (score : MusicFile → Int) (uid qs : String) (limit : Nat)
    (records : List MusicFile) (r : MusicFile)
    (ht : trimS qs ≠ "") (hlen : records.length ≤ limit) :
    (r ∈ (searchMusic ts score (qOnlyDto qs limit) uid records).music ↔
      (r ∈ records ∧ r.userId = uid ∧
        (ts (searchDocument r) (trimS qs) = true ∨
          likeOpt r.title (trimS qs) = true ∨
          likeOpt r.artist (trimS qs) = true ∨
          likeOpt r.album (trimS qs) = true ∨
          likeOpt r.albumArtist (trimS qs) = true))) ∧
    (∀ dto : SearchDto, dto.q = some qs →
      textStepCond ts dto.q r =
        (ts (searchDocument r) (trimS qs) ||
          (likeOpt r.title (trimS qs) || likeOpt r.artist (trimS qs) ||
            likeOpt r.album (trimS qs) || likeOpt r.albumArtist (trimS qs)))) := by
  constructor
  · rw [searchMusic_mem ts score (qOnlyDto qs limit) uid records r rfl hlen,
      buildSearchQB_sat]
    simp [qOnlyDto, textStepCond, strFilterCond, intFilterCond, rangeCond,
      composerCond, triStateCond, intTruthy, textCondition, ht]
    tauto
  · intro dto hq
    rw [hq]
    simp [textStepCond, textCondition, ht]

/-- Witness for C2: query `"roc"` returns the `"Rocket Man"` record even
under a ranking primitive that never matches anything. -/
theorem search_text_condition_witness :
    recRocket ∈ (searchMusic (fun _ _ => false) (fun _ => 0)
        (qOnlyDto "roc" 20) "u1" [recRocket]).music :=
  (search_text_condition (fun _ _ => false) (fun _ => 0) "u1" "roc" 20
      [recRocket] recRocket (by decide) (by decide)).1.mpr
    ⟨by decide, by decide, Or.inr (Or.inl (by decide))⟩

/-! Refinement lemmas for the suggestion engine. -/

theorem filterMap_suggestWhere (f : MusicFile → Option String) (term : String)
    (records : List MusicFile) :
    (records.filter (fun r => suggestWhere f term r)).filterMap f =
      (records.filterMap f).filter (fun v => ciContains v term) := by
  induction records with
  | nil => simp
  | cons r rs ih =>
    cases hfr : f r with
    | none =>
      have hw : suggestWhere f term r = false := by
        simp [suggestWhere, hfr, likeOpt]
      simp [List.filter_cons, hw, List.filterMap_cons, hfr, ih]
    | some v =>
      have hw : suggestWhere f term r = ciContains v term := by
        simp [suggestWhere, hfr, likeOpt]
      cases hc : ciContains v term with
      | true => simp [List.filter_cons, hw, hc, List.filterMap_cons, hfr, ih]
      | false => simp [List.filter_cons, hw, hc, List.filterMap_cons, hfr, ih]

theorem distinctAux_filter (p : String → Bool) (l : List String) :
    ∀ seen, distinctAux (seen.filter p) (l.filter p) =
      (distinctAux seen l).filter p := by
  induction l with
  | nil => intro seen; simp [distinctAux]
  | cons a as ih =>
    intro seen
    by_cases hp : p a = true
    · by_cases hm : a ∈ seen
      · have hmf : a ∈ seen.filter p := List.mem_filter.mpr ⟨hm, hp⟩
        simp only [List.filter_cons, hp, if_true, distinctAux, if_pos hm,
          if_pos hmf]
        exact ih seen
      · have hmf : a ∉ seen.filter p := fun hx => hm (List.mem_filter.mp hx).1
        simp only [List.filter_cons, hp, if_true, distinctAux, if_neg hm,
          if_neg hmf]
        have hseen : (a :: seen).filter p = a :: seen.filter p := by
          simp [List.filter_cons, hp]
        rw [← hseen, ih (a :: seen)]
    · have hpf : p a = false := by simpa using hp
      by_cases hm : a ∈ seen
      · simp only [List.filter_cons, hpf, Bool.false_eq_true, if_false,
          distinctAux, if_pos hm]
        exact ih seen
      · simp only [List.filter_cons, hpf, Bool.false_eq_true, if_false,
          distinctAux, if_neg hm]
        have hseen : (a :: seen).filter p = seen.filter p := by
          simp [List.filter_cons, hpf]
        rw [← hseen, ih (a :: seen)]

theorem distinct_filter (p : String → Bool) (l : List String) :
    distinct (l.filter p) = (distinct l).filter p := by
  have := distinctAux_filter p l []
  simpa [distinct] using this

theorem count_filter_suggestWhere (f : MusicFile → Option String)
    (term v : String) (records : List MusicFile)
    (hv : ciContains v term = true) :
    (records.filter
        (fun a => decide (f a = some v) && suggestWhere f term a)).length =
      (records.filter (fun r => f r = some v)).length := by
  induction records with
  | nil => rfl
  | cons r rs ih =>
    by_cases hfr : f r = some v
    · have hw : suggestWhere f term r = true := by
        simp [suggestWhere, hfr, likeOpt, hv]
      simp [List.filter_cons, hw, hfr, ih]
    · cases hw : suggestWhere f term r <;>
        simp [List.filter_cons, hw, hfr, ih]

theorem groupedSuggest_eq_spec (records : List MusicFile)
    (f : MusicFile → Option String) (t : SuggestionType) (term : String)
    (limit : Nat) :
    groupedSuggest records ⟨[suggestWhere f term]⟩ f t limit =
      fieldSuggestSpec records f t term limit := by
  have hsat : (QB.mk [suggestWhere f term]).sat =
      fun r => suggestWhere f term r := by
    funext r
    simp [QB.sat]
  simp only [groupedSuggest, fieldSuggestSpec, hsat]
  rw [filterMap_suggestWhere, distinct_filter]
  apply congrArg (fun l => (sortByCountDesc l).take limit)
  apply List.map_congr_left
  intro v hv
  have hc : ciContains v term = true := (List.mem_filter.mp hv).2
  simp [count_filter_suggestWhere f term v records hc]

/-- C9: suggestions are empty for an absent or too-short query; otherwise
the result is exactly the spec-worded computation: per-field distinct
matching values with occurrence counts capped at `limit` per field, merged,
globally re-sorted by count descending and truncated to `limit` total (not
per type). -/
theorem suggestions_merge_truncate (records : List MusicFile) (uid : String)
    (limit : Nat) :
    getSuggestions records uid none limit = [] ∧
      (∀ qs, (trimS qs).length < 2 →
        getSuggestions records uid (some qs) limit = []) ∧
      (∀ qs, ¬ (trimS qs).length < 2 →
        getSuggestions records uid (some qs) limit =
          suggestSpec records (trimS qs) limit) := by
  refine ⟨rfl, ?_, ?_⟩
  · intro qs h
    simp [getSuggestions, h]
  · intro qs h
    simp only [getSuggestions, if_neg h, QB.cloneQ, QB.whereQ,
      groupedSuggest_eq_spec, suggestSpec]

/-- Witness for C9 on a concrete catalog and query. -/
theorem suggestions_merge_truncate_witness :
    getSuggestions [recAlice] "bob" (some "ja") 10 =
      suggestSpec [recAlice] (trimS "ja") 10 :=
  (suggestions_merge_truncate [recAlice] "bob" 10).2.2 "ja" (by decide)

end EchoNest
